import Mathlib

/-!
Verification development for the struct-layout conformance checker
(validate-structs.py, run inside a gdb session) and the companion
static-file server (server.py).

The checker is embedded shallowly: the gdb session is a read-only
oracle mapping a language mode and a reference string to an optional
byte size; gdb.execute and gdb.parse_and_eval calls are recorded as an
event trace; the assert-driven loop is a fail-fast recursion returning
the trace, the per-pair outcomes observed and the terminal result.
-/

namespace ValidateStructs

/-- The debug-information session as a read-only oracle: given the
language mode currently in force and a reference string, it returns
the byte size gdb.parse_and_eval would report for sizeof of that
reference, or none when the reference does not resolve (gdb raises). -/
def Oracle : Type := String → String → Option Nat

/-- The mutable gdb session state the script touches: only the
language mode, set once by the line gdb.execute with set language. -/
structure Session where
  language : String
deriving DecidableEq

/-- Observable interactions with the gdb session. -/
inductive Event where
  /-- gdb.execute with a set-language command. -/
  | setLanguage (lang : String)
  /-- gdb.parse_and_eval of sizeof of a reference, under the language
  mode in force at the moment of the call. -/
  | resolve (ref : String) (lang : String)
deriving DecidableEq

/-- Per-pair outcome, following the data model of the spec. -/
inductive ConformanceResult where
  | Pass
  | Fail (bindingSize nativeSize : Nat)
  | Unresolved (ref : String)
deriving DecidableEq

/-- Terminal result of the script: the sentinel line printed on
success, or the uncaught exception that aborted the run. -/
inductive RunResult where
  /-- The script reached its final line and printed this output. -/
  | ok (output : String)
  /-- gdb.parse_and_eval raised on this reference; the script aborts. -/
  | unresolvedError (ref : String)
  /-- The assert failed, raising AssertionError with this message. -/
  | assertionError (msg : String)
deriving DecidableEq

/-- The registry of checked pairs, verbatim from validate-structs.py:
(binding-side reference, native-side reference). -/
def checked_types : List (String × String) := [
  -- decoder
  ("zydis::decoder::Decoder", "ZydisDecoder"),
  ("zydis::ffi::decoder::AccessedFlags<zydis::enums::CpuFlag>", "ZydisAccessedFlags"),
  ("zydis::ffi::decoder::AccessedFlags<zydis::enums::FpuFlag>", "ZydisAccessedFlags"),
  ("zydis::ffi::decoder::AvxInfo", "ZydisDecodedInstructionAvx"),
  ("zydis::ffi::decoder::MetaInfo", "ZydisDecodedInstructionMeta"),
  ("zydis::ffi::decoder::RawInfo", "ZydisDecodedInstructionRaw"),
  ("zydis::ffi::decoder::MemoryInfo", "ZydisDecodedOperandMem"),
  ("zydis::ffi::decoder::PointerInfo", "ZydisDecodedOperandPtr"),
  ("zydis::enums::generated::Register", "ZydisDecodedOperandReg"),
  ("zydis::ffi::decoder::ImmediateInfo", "ZydisDecodedOperandImm"),
  ("zydis::ffi::decoder::DecodedOperand", "ZydisDecodedOperand"),
  ("zydis::ffi::decoder::DecoderContext", "ZydisDecoderContext"),
  -- encoder
  ("zydis::ffi::encoder::OperandRegister", "((ZydisEncoderOperand*)(0))->reg"),
  ("zydis::ffi::encoder::OperandPointer", "((ZydisEncoderOperand*)(0))->ptr"),
  ("zydis::ffi::encoder::OperandMemory", "((ZydisEncoderOperand*)(0))->mem"),
  ("zydis::ffi::encoder::EncoderOperand", "ZydisEncoderOperand"),
  ("zydis::ffi::encoder::EncoderRequest", "ZydisEncoderRequest"),
  -- formatter
  ("zydis::ffi::formatter::Formatter", "ZydisFormatter"),
  ("zydis::ffi::formatter::FormatterBuffer", "ZydisFormatterBuffer"),
  -- zycore
  ("zydis::ffi::zycore::ZyanVector", "ZyanVector"),
  ("zydis::ffi::zycore::ZyanString", "ZyanString")
]

/-- The sizeof helper: gdb.parse_and_eval of sizeof of the reference,
evaluated under the language mode of the current session. -/
def sizeof (oracle : Oracle) (s : Session) (ty : String) : Option Nat :=
  oracle s.language ty

/-- The AssertionError message built by the f-string in the assert:
binding type NAME is B bytes, but expected N. -/
def assertMsg (bind_ty : String) (bind_ty_sz c_ty_sz : Nat) : String :=
  "binding type " ++ bind_ty ++ " is " ++ toString bind_ty_sz ++
    " bytes, but expected " ++ toString c_ty_sz

/-- One iteration of the loop body: measure the binding side, measure
the native side, compare. Returns the gdb events performed and the
outcome of the pair. A failed parse_and_eval still counts as a
resolve attempt (the call was made and raised). -/
def checkPair (oracle : Oracle) (s : Session) (bind_ty c_ty : String) :
    List Event × ConformanceResult :=
  match sizeof oracle s bind_ty with
  | none => ([Event.resolve bind_ty s.language], ConformanceResult.Unresolved bind_ty)
  | some bind_ty_sz =>
    match sizeof oracle s c_ty with
    | none => ([Event.resolve bind_ty s.language, Event.resolve c_ty s.language],
               ConformanceResult.Unresolved c_ty)
    | some c_ty_sz =>
      ([Event.resolve bind_ty s.language, Event.resolve c_ty s.language],
       if bind_ty_sz = c_ty_sz then ConformanceResult.Pass
       else ConformanceResult.Fail bind_ty_sz c_ty_sz)

/-- The for-loop over the registry. Python semantics: an exception
(gdb.error from parse_and_eval, or AssertionError from the assert)
propagates out of the loop, so the first non-Pass pair aborts the run
and later pairs are never measured. Returns the event trace, the
sequence of per-pair outcomes actually produced, and the terminal
result. -/
def runPairs (oracle : Oracle) (s : Session) :
    List (String × String) → List Event × List ConformanceResult × RunResult
  | [] => ([], [], RunResult.ok "ALL STRUCTS OK")
  | (bind_ty, c_ty) :: rest =>
    match checkPair oracle s bind_ty c_ty with
    | (ev, ConformanceResult.Pass) =>
      let r := runPairs oracle s rest
      (ev ++ r.1, ConformanceResult.Pass :: r.2.1, r.2.2)
    | (ev, ConformanceResult.Fail m n) =>
      (ev, [ConformanceResult.Fail m n],
       RunResult.assertionError (assertMsg bind_ty m n))
    | (ev, ConformanceResult.Unresolved ref) =>
      (ev, [ConformanceResult.Unresolved ref], RunResult.unresolvedError ref)

/-- The whole script: gdb.execute sets the language to c++ once, then
the loop runs over checked_types; if it finishes, the sentinel line
ALL STRUCTS OK is printed. -/
def run (oracle : Oracle) : List Event × List ConformanceResult × RunResult :=
  let s : Session := { language := "c++" }
  let r := runPairs oracle s checked_types
  (Event.setLanguage "c++" :: r.1, r.2.1, r.2.2)

/-- References resolved in a trace, in order. -/
def resolveRefs (tr : List Event) : List String :=
  tr.filterMap fun e =>
    match e with
    | Event.resolve ref _ => some ref
    | Event.setLanguage _ => none

/-- Whether an event is a resolve (as opposed to a language change). -/
def isResolve : Event → Bool
  | Event.resolve _ _ => true
  | Event.setLanguage _ => false

/-- Whether an event carries the c++ language mode. -/
def eventLangCpp : Event → Bool
  | Event.resolve _ lang => lang == "c++"
  | Event.setLanguage lang => lang == "c++"

/-- Whether a per-pair outcome is Pass. -/
def isPass : ConformanceResult → Bool
  | ConformanceResult.Pass => true
  | _ => false

/-- Whether a terminal result is an abnormal termination carrying a
diagnostic (an uncaught exception), rather than the success path. -/
def isError : RunResult → Bool
  | RunResult.ok _ => false
  | RunResult.unresolvedError _ => true
  | RunResult.assertionError _ => true

/-- Substring test on strings via the underlying character lists. -/
def containsStr (hay pat : String) : Bool :=
  decide (pat.toList <:+: hay.toList)

/-- The all-pass oracle used for concrete evaluations: every reference
resolves, to the same size. -/
def oracle64 : Oracle := fun _ _ => some 64

/-- Oracle for the mixed scenario: ZydisAccessedFlags is unresolvable,
ZydisDecodedInstructionAvx measures 32, everything else 64. -/
def oracleMixed : Oracle := fun _ r =>
  if r = "ZydisAccessedFlags" then none
  else if r = "ZydisDecodedInstructionAvx" then some 32
  else some 64

/-- Oracle making the first pair mismatch: the binding side measures
24 bytes, every other reference 32 bytes. -/
def oracleMismatch : Oracle := fun _ r =>
  if r = "zydis::decoder::Decoder" then some 24 else some 32

/-- Oracle for the one-byte-off scenario: the first binding reference
measures 23 bytes, every other reference 24 bytes. -/
def oracle2324 : Oracle := fun _ r =>
  if r = "zydis::decoder::Decoder" then some 23 else some 24

/-- Oracle under which no reference resolves. -/
def oracleNone : Oracle := fun _ _ => none

/-- A second all-pass oracle, syntactically different from oracle64
but extensionally equal to it. -/
def oracle64b : Oracle := fun _ _ => some (63 + 1)

/-- The language of an event. -/
def eventLang : Event → String
  | Event.setLanguage lang => lang
  | Event.resolve _ lang => lang

/-- Languages of the resolve events of a trace, in order. -/
def resolveLangs (tr : List Event) : List String :=
  tr.filterMap fun e =>
    match e with
    | Event.resolve _ lang => some lang
    | Event.setLanguage _ => none

/-- Whether the whole registry passes under an oracle: the loop body
yields Pass for every pair. -/
def allPass (o : Oracle) : Bool :=
  checked_types.all fun p => isPass (checkPair o { language := "c++" } p.1 p.2).2

lemma isPass_iff (r : ConformanceResult) :
    isPass r = true ↔ r = ConformanceResult.Pass := by
  cases r <;> simp [isPass]

lemma allPass_iff (o : Oracle) :
    allPass o = true ↔
      ∀ p ∈ checked_types,
        (checkPair o { language := "c++" } p.1 p.2).2 = ConformanceResult.Pass := by
  simp [allPass, List.all_eq_true, isPass_iff]

lemma checkPair_of_pass {o : Oracle} {s : Session} {b c : String}
    (hc : (checkPair o s b c).2 = ConformanceResult.Pass) :
    checkPair o s b c =
      ([Event.resolve b s.language, Event.resolve c s.language],
       ConformanceResult.Pass) := by
  cases h1 : sizeof o s b with
  | none => simp [checkPair, h1] at hc
  | some m =>
    cases h2 : sizeof o s c with
    | none => simp [checkPair, h1, h2] at hc
    | some n =>
      by_cases hmn : m = n
      · simp [checkPair, h1, h2, hmn]
      · simp [checkPair, h1, h2, hmn] at hc

lemma runPairs_of_all_pass (o : Oracle) (s : Session) :
    ∀ ps : List (String × String),
      (∀ p ∈ ps, (checkPair o s p.1 p.2).2 = ConformanceResult.Pass) →
      runPairs o s ps =
        (ps.flatMap fun p =>
          [Event.resolve p.1 s.language, Event.resolve p.2 s.language],
         ps.map fun _ => ConformanceResult.Pass,
         RunResult.ok "ALL STRUCTS OK")
  | [], _ => rfl
  | (b, c) :: rest, h => by
    have hb := h (b, c) (List.mem_cons_self _ _)
    have hrest := runPairs_of_all_pass o s rest fun p hp => h p (List.mem_cons_of_mem _ hp)
    simp only [runPairs, checkPair_of_pass hb, hrest, List.flatMap_cons, List.map_cons]

lemma runPairs_ok_iff (o : Oracle) (s : Session) :
    ∀ ps : List (String × String),
      (runPairs o s ps).2.2 = RunResult.ok "ALL STRUCTS OK" ↔
        ∀ p ∈ ps, (checkPair o s p.1 p.2).2 = ConformanceResult.Pass
  | [] => by simp [runPairs]
  | (b, c) :: rest => by
    have ih := runPairs_ok_iff o s rest
    rcases h : checkPair o s b c with ⟨ev, r⟩
    have h2 : (checkPair o s b c).2 = r := by rw [h]
    cases r with
    | Pass =>
      simp only [runPairs, h]
      constructor
      · intro hok p hp
        rcases List.mem_cons.mp hp with rfl | hp
        · exact h2
        · exact (ih.mp hok) p hp
      · intro hall
        exact ih.mpr fun p hp => hall p (List.mem_cons_of_mem _ hp)
    | Fail m n =>
      simp only [runPairs, h]
      constructor
      · intro hok; cases hok
      · intro hall
        have := hall (b, c) (List.mem_cons_self _ _)
        rw [h2] at this; cases this
    | Unresolved ref =>
      simp only [runPairs, h]
      constructor
      · intro hok; cases hok
      · intro hall
        have := hall (b, c) (List.mem_cons_self _ _)
        rw [h2] at this; cases this

lemma runPairs_ok_or_error (o : Oracle) (s : Session) :
    ∀ ps : List (String × String),
      (runPairs o s ps).2.2 = RunResult.ok "ALL STRUCTS OK" ∨
        isError (runPairs o s ps).2.2 = true
  | [] => Or.inl rfl
  | (b, c) :: rest => by
    rcases h : checkPair o s b c with ⟨ev, r⟩
    cases r with
    | Pass =>
      have ih := runPairs_ok_or_error o s rest
      simpa only [runPairs, h] using ih
    | Fail m n => simp [runPairs, h, isError]
    | Unresolved ref => simp [runPairs, h, isError]

lemma checkPair_events (o : Oracle) (s : Session) (b c : String) :
    ∀ e ∈ (checkPair o s b c).1, ∃ r, e = Event.resolve r s.language := by
  unfold checkPair
  cases h1 : sizeof o s b with
  | none => intro e he; simp at he; exact ⟨b, he⟩
  | some m =>
    cases h2 : sizeof o s c with
    | none =>
      intro e he; simp at he
      rcases he with rfl | rfl
      · exact ⟨b, rfl⟩
      · exact ⟨c, rfl⟩
    | some n =>
      intro e he; simp at he
      rcases he with rfl | rfl
      · exact ⟨b, rfl⟩
      · exact ⟨c, rfl⟩

lemma runPairs_events (o : Oracle) (s : Session) :
    ∀ ps : List (String × String),
      ∀ e ∈ (runPairs o s ps).1, ∃ r, e = Event.resolve r s.language
  | [] => by intro e he; simp [runPairs] at he
  | (b, c) :: rest => by
    intro e he
    rcases h : checkPair o s b c with ⟨ev, r⟩
    have hev : ∀ e ∈ ev, ∃ r, e = Event.resolve r s.language := by
      intro x hx
      exact checkPair_events o s b c x (by rw [h]; exact hx)
    cases r with
    | Pass =>
      rw [runPairs, h] at he
      simp only [List.mem_append] at he
      rcases he with he | he
      · exact hev e he
      · exact runPairs_events o s rest e he
    | Fail m n =>
      rw [runPairs, h] at he
      exact hev e he
    | Unresolved ref =>
      rw [runPairs, h] at he
      exact hev e he

lemma containsStr_iff (hay pat : String) :
    containsStr hay pat = true ↔ pat.toList <:+: hay.toList := by
  simp [containsStr]

lemma toList_assertMsg (b : String) (m n : Nat) :
    (assertMsg b m n).toList =
      "binding type ".toList ++ b.toList ++ " is ".toList ++ (toString m).toList ++
        " bytes, but expected ".toList ++ (toString n).toList := by
  simp [assertMsg]

/-- C1 counterexample: under oracleMixed the registry holds one pair
whose native reference is unresolvable and one later pair whose sizes
mismatch, among otherwise-passing pairs; the run aborts at the
unresolved pair with only 2 of the 21 pairs given an outcome and only
4 of the 42 measurements performed, so the driver does not continue
to the next pair after an Unresolved measurement. -/
theorem mixed_run_stops_at_first_unresolved :
    (run oracleMixed).2.1 =
        [ConformanceResult.Pass, ConformanceResult.Unresolved "ZydisAccessedFlags"] ∧
      (run oracleMixed).2.1.length ≠ checked_types.length ∧
      (run oracleMixed).2.2 = RunResult.unresolvedError "ZydisAccessedFlags" ∧
      (resolveRefs (run oracleMixed).1).length = 4 ∧
      checked_types.length = 21 := by
  decide

/-- C1 (amended): the driver is fail-fast, not fail-open: the first
pair whose outcome is not Pass (unresolvable reference or size
mismatch) aborts the run with an error; its outcome is the last one
recorded and no later pair is measured (the trace ends with that
pair's own resolution attempts). -/
theorem runPairs_fail_fast (o : Oracle) (s : Session) (b c : String)
    (rest : List (String × String))
    (h : isPass (checkPair o s b c).2 = false) :
    (runPairs o s ((b, c) :: rest)).2.1 = [(checkPair o s b c).2] ∧
      isError (runPairs o s ((b, c) :: rest)).2.2 = true ∧
      (runPairs o s ((b, c) :: rest)).1 = (checkPair o s b c).1 := by
  rcases hc : checkPair o s b c with ⟨ev, r⟩
  cases r with
  | Pass => rw [hc] at h; simp [isPass] at h
  | Fail m n => simp [runPairs, hc, isError]
  | Unresolved ref => simp [runPairs, hc, isError]

/-- C1 witness: the fail-fast theorem applied to a concrete two-pair
registry whose first pair is unresolvable. -/
theorem runPairs_fail_fast_witness :
    isPass (checkPair oracleNone { language := "c++" } "A" "B").2 = false ∧
      ((runPairs oracleNone { language := "c++" } [("A", "B"), ("X", "Y")]).2.1 =
          [(checkPair oracleNone { language := "c++" } "A" "B").2] ∧
        isError (runPairs oracleNone { language := "c++" } [("A", "B"), ("X", "Y")]).2.2 = true ∧
        (runPairs oracleNone { language := "c++" } [("A", "B"), ("X", "Y")]).1 =
          (checkPair oracleNone { language := "c++" } "A" "B").1) :=
  ⟨by decide,
   runPairs_fail_fast oracleNone { language := "c++" } "A" "B" [("X", "Y")] (by decide)⟩

/-- C2: for a pair where both sides resolve, the loop body yields Pass
exactly when the measured binding-side size equals the measured
native-side size. -/
theorem checkPair_pass_iff_sizes_equal (o : Oracle) (s : Session) (b c : String)
    (m n : Nat) (hb : sizeof o s b = some m) (hc : sizeof o s c = some n) :
    ((checkPair o s b c).2 = ConformanceResult.Pass ↔ m = n) := by
  by_cases hmn : m = n <;> simp [checkPair, hb, hc, hmn]

/-- C2 witness: the agreement theorem at the first registry pair under
the all-64 oracle. -/
theorem checkPair_pass_iff_sizes_equal_witness :
    sizeof oracle64 { language := "c++" } "zydis::decoder::Decoder" = some 64 ∧
      sizeof oracle64 { language := "c++" } "ZydisDecoder" = some 64 ∧
      ((checkPair oracle64 { language := "c++" } "zydis::decoder::Decoder"
          "ZydisDecoder").2 = ConformanceResult.Pass ↔ 64 = 64) :=
  ⟨rfl, rfl,
   checkPair_pass_iff_sizes_equal oracle64 { language := "c++" }
     "zydis::decoder::Decoder" "ZydisDecoder" 64 64 rfl rfl⟩

/-- C3: the run ends in the sentinel output ALL STRUCTS OK exactly
when every registry pair passes, and every run ends either in that
sentinel or in an abnormal termination carrying a diagnostic — the
sentinel is never printed on a failing run. -/
theorem run_terminal_verdict (o : Oracle) :
    ((run o).2.2 = RunResult.ok "ALL STRUCTS OK" ↔ allPass o = true) ∧
      ((run o).2.2 = RunResult.ok "ALL STRUCTS OK" ∨ isError (run o).2.2 = true) := by
  have h1 : (run o).2.2 = (runPairs o { language := "c++" } checked_types).2.2 := rfl
  rw [h1]
  exact ⟨(runPairs_ok_iff o { language := "c++" } checked_types).trans
           (allPass_iff o).symm,
         runPairs_ok_or_error o { language := "c++" } checked_types⟩

/-- C4 counterexample: in the concrete all-pass run, every one of the
42 resolutions, binding side and native side alike, is performed under
the single language mode c++; in particular the first pair's two sides
are measured under equal dialect modes, not each under its own. -/
theorem both_sides_same_dialect :
    resolveLangs (run oracle64).1 = List.replicate 42 "c++" ∧
      (resolveRefs (run oracle64).1)[0]? = some "zydis::decoder::Decoder" ∧
      (resolveRefs (run oracle64).1)[1]? = some "ZydisDecoder" ∧
      ¬ ((resolveLangs (run oracle64).1)[0]? ≠ (resolveLangs (run oracle64).1)[1]?) := by
  decide

/-- C4 (amended): both sides of every pair are measured under the one
dialect mode c++, set once at session start; every event of every run
carries that language. -/
theorem run_single_dialect_cpp (o : Oracle) :
    (run o).1.all eventLangCpp = true := by
  rw [List.all_eq_true]
  intro e he
  have h1 : (run o).1 =
      Event.setLanguage "c++" :: (runPairs o { language := "c++" } checked_types).1 := rfl
  rw [h1] at he
  rcases List.mem_cons.mp he with rfl | he
  · rfl
  · rcases runPairs_events o { language := "c++" } checked_types e he with ⟨r, rfl⟩
    rfl

/-- C5 counterexample: the mismatch diagnostic raised by the run under
oracleMismatch carries the binding-side name and both byte sizes, but
it does not contain the native-side type identifier ZydisDecoder. -/
theorem assert_message_omits_native_name :
    (run oracleMismatch).2.2 =
        RunResult.assertionError (assertMsg "zydis::decoder::Decoder" 24 32) ∧
      containsStr (assertMsg "zydis::decoder::Decoder" 24 32) "zydis::decoder::Decoder" = true ∧
      containsStr (assertMsg "zydis::decoder::Decoder" 24 32) "24" = true ∧
      containsStr (assertMsg "zydis::decoder::Decoder" 24 32) "32" = true ∧
      containsStr (assertMsg "zydis::decoder::Decoder" 24 32) "ZydisDecoder" = false := by
  decide

/-- C5 (amended): the mismatch diagnostic always carries both concrete
byte sizes and the binding-side type identifier (the native-side
identifier is the one piece it omits). -/
theorem assertMsg_carries_sizes_and_binding_name (b : String) (m n : Nat) :
    containsStr (assertMsg b m n) b = true ∧
      containsStr (assertMsg b m n) (toString m) = true ∧
      containsStr (assertMsg b m n) (toString n) = true := by
  refine ⟨?_, ?_, ?_⟩ <;> rw [containsStr_iff, toList_assertMsg]
  · exact ⟨"binding type ".toList,
      " is ".toList ++ (toString m).toList ++ " bytes, but expected ".toList ++
        (toString n).toList, by simp⟩
  · exact ⟨"binding type ".toList ++ b.toList ++ " is ".toList,
      " bytes, but expected ".toList ++ (toString n).toList, by simp⟩
  · exact ⟨"binding type ".toList ++ b.toList ++ " is ".toList ++
      (toString m).toList ++ " bytes, but expected ".toList, [], by simp⟩

/-- C6: the language mode is set exactly once per run, as the very
first session interaction, before any resolution: the trace head is
the set-language event and every later event is a resolution. -/
theorem language_set_once_before_resolution (o : Oracle) :
    (run o).1.head? = some (Event.setLanguage "c++") ∧
      (run o).1.tail.all isResolve = true := by
  constructor
  · rfl
  · rw [List.all_eq_true]
    intro e he
    have h1 : (run o).1.tail = (runPairs o { language := "c++" } checked_types).1 := rfl
    rw [h1] at he
    rcases runPairs_events o { language := "c++" } checked_types e he with ⟨r, rfl⟩
    rfl

/-- C7: comparison is exact equality with no tolerance: whenever both
sides resolve to different sizes, the pair fails — it is never Pass. -/
theorem size_mismatch_fails (o : Oracle) (s : Session) (b c : String) (m n : Nat)
    (hb : sizeof o s b = some m) (hc : sizeof o s c = some n) (hmn : m ≠ n) :
    (checkPair o s b c).2 = ConformanceResult.Fail m n ∧
      (checkPair o s b c).2 ≠ ConformanceResult.Pass := by
  simp [checkPair, hb, hc, hmn]

/-- C7 witness: sizes 23 versus 24 — one byte apart — yield Fail. -/
theorem size_mismatch_fails_witness :
    sizeof oracle2324 { language := "c++" } "zydis::decoder::Decoder" = some 23 ∧
      sizeof oracle2324 { language := "c++" } "ZydisDecoder" = some 24 ∧
      (23 : Nat) ≠ 24 ∧
      ((checkPair oracle2324 { language := "c++" } "zydis::decoder::Decoder"
          "ZydisDecoder").2 = ConformanceResult.Fail 23 24 ∧
        (checkPair oracle2324 { language := "c++" } "zydis::decoder::Decoder"
          "ZydisDecoder").2 ≠ ConformanceResult.Pass) :=
  ⟨by decide, by decide, by decide,
   size_mismatch_fails oracle2324 { language := "c++" }
     "zydis::decoder::Decoder" "ZydisDecoder" 23 24 (by decide) (by decide) (by decide)⟩

/-- C8: the run is a deterministic function of the debug-information
oracle: two oracles answering identically on every query give runs
with identical traces, identical per-pair outcome sequences and the
identical terminal verdict. -/
theorem run_deterministic_in_oracle (o1 o2 : Oracle)
    (h : ∀ lang r, o1 lang r = o2 lang r) : run o1 = run o2 := by
  have ho : o1 = o2 := funext fun lang => funext fun r => h lang r
  rw [ho]

/-- C8 witness: two syntactically different but extensionally equal
oracles give the same run. -/
theorem run_deterministic_in_oracle_witness : run oracle64 = run oracle64b :=
  run_deterministic_in_oracle oracle64 oracle64b fun _ _ => rfl

/-- C10: no deduplication or memoization across registry entries:
when every pair passes, the resolution trace is exactly both sides of
every entry in registry order, so the native name ZydisAccessedFlags,
which occurs in two registry pairs, is independently resolved twice. -/
theorem fresh_measurements_per_entry (o : Oracle) (h : allPass o = true) :
    resolveRefs (run o).1 = (checked_types.flatMap fun p => [p.1, p.2]) ∧
      (resolveRefs (run o).1).count "ZydisAccessedFlags" = 2 ∧
      (checked_types.map Prod.snd).count "ZydisAccessedFlags" = 2 := by
  have hall := (allPass_iff o).mp h
  have hrw := runPairs_of_all_pass o { language := "c++" } checked_types hall
  have h1 : (run o).1 =
      Event.setLanguage "c++" :: (runPairs o { language := "c++" } checked_types).1 := rfl
  rw [h1, hrw]
  refine ⟨?_, ?_, ?_⟩ <;> decide

/-- C10 witness: the no-memoization theorem at the all-64 oracle. -/
theorem fresh_measurements_per_entry_witness :
    allPass oracle64 = true ∧
      (resolveRefs (run oracle64).1 = (checked_types.flatMap fun p => [p.1, p.2]) ∧
        (resolveRefs (run oracle64).1).count "ZydisAccessedFlags" = 2 ∧
        (checked_types.map Prod.snd).count "ZydisAccessedFlags" = 2) :=
  ⟨by decide, fresh_measurements_per_entry oracle64 (by decide)⟩

end ValidateStructs

namespace Server

/-- The fixed port, verbatim from server.py. -/
def PORT : Nat := 8003

/-- The mutation server.py applies to the handler class: the
extensions-to-MIME map of the stdlib static GET handler, with the
entry for .wasm set to application/wasm. The stdlib default map is
external input (base). -/
def extensions_map (base : String → Option String) : String → Option String :=
  fun ext => if ext = ".wasm" then some "application/wasm" else base ext

/-- C9: the server listens on the fixed port 8003, serves the MIME
type application/wasm for the extension .wasm, and changes the MIME
mapping of no other extension — whatever the stdlib base map is, every
extension other than .wasm keeps its base mapping. The server
definitions take no input from the conformance checker. -/
theorem server_port_and_wasm_mime (base : String → Option String) (ext : String)
    (h : ext ≠ ".wasm") :
    extensions_map base ".wasm" = some "application/wasm" ∧
      PORT = 8003 ∧
      extensions_map base ext = base ext := by
  refine ⟨by simp [extensions_map], rfl, ?_⟩
  simp [extensions_map, h]

/-- C9 witness: the server theorem at a concrete base map and the
extension .html. -/
theorem server_port_and_wasm_mime_witness :
    (".html" : String) ≠ ".wasm" ∧
      (extensions_map (fun _ => none) ".wasm" = some "application/wasm" ∧
        PORT = 8003 ∧
        extensions_map (fun _ => none) ".html" = none) :=
  ⟨by decide, server_port_and_wasm_mime (fun _ => none) ".html" (by decide)⟩

end Server
